import Mathlib

/-! # The `scraper` command line: configuration, logger set-up and the `do` command

A shallow embedding of `cmd/scraper/cmd/root.go` and `cmd/scraper/cmd/do.go`.

* Go strings are embedded as Lean `String`s (sequences of Unicode code points, that is,
  valid UTF-8 text).
* Functions of the Go standard library and of third-party packages are either modelled
  from their published behaviour (`strings.TrimSpace`, `strings.Join`, the ASCII part of
  `strings.ToLower`, the Unix `filepath.Join`) or taken as a parameter
  (`zerolog.ParseLevel`, `http.NewRequest`, `blob.NewBucket`, `scraper.NewScraper`,
  `Scraper.Do`, the Unicode lower-case table, the terminal test on standard error).
* `log.Fatal()` ends the process (`os.Exit(1)`); a function that can reach it returns
  `Except Fatal _`, the error being the fatal event.
* Standard output is an explicit `String` that each print appends to.
-/

namespace Scraper

/-! ## Go standard library -/

/-- Go `unicode.IsSpace`: the Latin-1 white space characters and the `White_Space` table. -/
def unicodeIsSpace (c : Char) : Bool :=
  let n := c.toNat
  (9 ≤ n && n ≤ 13) || n == 32 || n == 0x85 || n == 0xA0 || n == 0x1680 ||
  (0x2000 ≤ n && n ≤ 0x200A) || n == 0x2028 || n == 0x2029 || n == 0x202F ||
  n == 0x205F || n == 0x3000

/-- Go `strings.TrimSpace`: the string without its leading and trailing white space. -/
def stringsTrimSpace (s : String) : String :=
  String.mk (((s.data.dropWhile unicodeIsSpace).reverse.dropWhile unicodeIsSpace).reverse)

/-- Go `unicode.ToLower`: an ASCII rune is lowered by the fixed offset, every other rune
goes through the Unicode case table, here the parameter `table`. -/
def unicodeToLower (table : Char → Char) (c : Char) : Char :=
  if c.toNat ≤ 127 then
    if 65 ≤ c.toNat ∧ c.toNat ≤ 90 then Char.ofNat (c.toNat + 32) else c
  else table c

/-- Go `strings.ToLower`: every rune mapped to lower case. -/
def stringsToLower (table : Char → Char) (s : String) : String :=
  String.mk (s.data.map (unicodeToLower table))

/-- Go `strings.Join`: the elements with `sep` between consecutive ones. -/
def stringsJoin : List String → String → String
  | [], _ => ""
  | [a], _ => a
  | a :: b :: rest, sep => a ++ sep ++ stringsJoin (b :: rest) sep

/-- The components of a path: the pieces between the `/` separators. -/
def pathElements : List Char → List (List Char)
  | [] => [[]]
  | c :: cs =>
    if c = '/' then [] :: pathElements cs
    else
      match pathElements cs with
      | [] => [[c]]
      | e :: es => (c :: e) :: es

/-- One step of `Clean`: `out` holds the elements kept so far, last one first, and
`dotdot` counts the leading `..` elements, which a later `..` cannot remove. -/
def cleanStep (rooted : Bool) (st : List (List Char) × Nat) (e : List Char) :
    List (List Char) × Nat :=
  if e = [] ∨ e = ['.'] then st
  else if e = ['.', '.'] then
    if st.2 < st.1.length then (st.1.tail, st.2)
    else if rooted then st
    else (e :: st.1, st.2 + 1)
  else (e :: st.1, st.2)

/-- Go `filepath.Clean` on a Unix host (separator `/`, no volume name). -/
def filepathClean (path : String) : String :=
  if path = "" then "."
  else
    let rooted := path.data.head? == some '/'
    let kept := ((pathElements path.data).foldl (cleanStep rooted) ([], 0)).1.reverse
    let body := stringsJoin (kept.map String.mk) "/"
    let out := if rooted then "/" ++ body else body
    if out = "" then "." else out

/-- Go `filepath.Join` on a Unix host: the elements from the first non-empty one on are
joined with `/` and the result is cleaned; with no non-empty element the result is empty. -/
def filepathJoin : List String → String
  | [] => ""
  | e :: rest => if e ≠ "" then filepathClean (stringsJoin (e :: rest) "/") else filepathJoin rest

/-- Go `os.Getenv`: the value of the variable, empty when it is not set. -/
def osGetenv (environ : String → Option String) (key : String) : String :=
  (environ key).getD ""

/-! ## Errors -/

/-- A Go `error`: a plain message, or `fmt.Errorf(pre + "%w", inner)` wrapping another one. -/
inductive GoError where
  | new (text : String)
  | wrapf (pre : String) (inner : GoError)
  deriving DecidableEq, Repr

/-- The method `Error()`: the text of the error, the wrapping context first. -/
def GoError.Error : GoError → String
  | .new text => text
  | .wrapf pre inner => pre ++ inner.Error

/-- A fatal log event, after which zerolog calls `os.Exit(1)`: either
`Fatal().Err(err).Send()` or `Fatal().Msgf(format, arg)`. -/
inductive Fatal where
  | err (e : GoError)
  | msgf (format : String) (arg : String)
  deriving DecidableEq, Repr

/-! ## `root.go`: the configuration directory -/

/-- The constant `appName`. -/
def appName : String := "scraper"

/-- The function `getConfigDir`. `Join` is `filepath.Join` of the host, `UserHomeDir` the
result of `os.UserHomeDir()`, `GOOS` the constant `runtime.GOOS` and `environ` the process
environment. An error result is the fatal exit taken when the home directory is unknown. -/
def getConfigDir (Join : List String → String) (UserHomeDir : Except GoError String)
    (GOOS : String) (environ : String → Option String) : Except Fatal String :=
  match UserHomeDir with
  | .error err => .error (.err err)
  | .ok homedir =>
    if GOOS = "linux" then
      let xdgConfig := osGetenv environ "XDG_CONFIG_HOME"
      if xdgConfig ≠ "" then .ok (Join [xdgConfig, appName])
      else .ok (Join [homedir, ".config", appName])
    else if GOOS = "darwin" then
      .ok (Join [homedir, "Library", "Preferences", appName])
    else
      .ok (Join [homedir, ".config", appName])

/-- The environment in which only `XDG_CONFIG_HOME` may be set. -/
def xdgEnviron (xdg : Option String) : String → Option String :=
  fun key => if key = "XDG_CONFIG_HOME" then xdg else none

/-! ## Flags and the logger -/

/-- A `zerolog.Level`, an `int8` in Go. -/
abbrev Level := Int

/-- The constant `zerolog.InfoLevel`. -/
def InfoLevel : Level := 1

/-- The constant `zerolog.ErrorLevel`. -/
def ErrorLevel : Level := 3

/-- The constant `zerolog.FatalLevel`. -/
def FatalLevel : Level := 4

/-- The flags registered by the two `init` functions, with the values they have after the
command line is parsed. `mustFlagString` and `mustFlagBool` read a registered flag of the
right type, cannot fail on these, and are embedded as field access. -/
structure Cmd where
  /-- Flag `--bucket-url`. -/
  bucketURL : String
  /-- Flag `--cache-dir`. -/
  cacheDir : String
  /-- Flag `--no-cache`. -/
  noCache : Bool
  /-- Flag `--log-level`. -/
  logLevel : String
  /-- Flag `--log-format`. -/
  logFormat : String
  /-- Flag `--log-color`. -/
  logColor : String
  /-- Flag `--log-color-always`. -/
  logColorAlways : Bool
  /-- Flag `--browser`. -/
  browser : Bool
  /-- Flag `--method`. -/
  method : String
  /-- Flag `--force-refetch`. -/
  forceRefetch : Bool
  /-- Flag `--include`. -/
  includeHeaders : Bool
  /-- Flag `--head`. -/
  head : Bool

/-- The type `loggerOptions`; `mo.Option` is `Option`, `OrElse` is `Option.getD`. -/
structure loggerOptions where
  /-- Field `Level`. -/
  Level : Option Level
  /-- Field `Format`. -/
  Format : Option String
  /-- Field `Color`. -/
  Color : Option String

/-- Where a `zerolog.Logger` writes. Both writers write to standard error: the JSON lines
of `zerolog.New(os.Stderr)`, or a `zerolog.ConsoleWriter` with its `NoColor` field. -/
inductive Writer where
  | json
  | console (NoColor : Bool)
  deriving DecidableEq, Repr

/-- A `zerolog.Logger`, as far as `initLogger` configures it. -/
structure Logger where
  /-- The writer behind the logger. -/
  out : Writer
  deriving DecidableEq, Repr

/-- Whether the lines the logger writes are colorized. -/
def Logger.colorEnabled (lg : Logger) : Bool :=
  match lg.out with
  | .json => false
  | .console NoColor => !NoColor

/-- Whether the logger renders human-readable console lines. -/
def Logger.isConsole (lg : Logger) : Bool :=
  match lg.out with
  | .json => false
  | .console _ => true

/-- The function `initLogger`. `table` is the Unicode lower-case table and `isTerm` the
result of `isatty.IsTerminal(os.Stderr.Fd())`. The logger returned by `lg.Level(...)` is
dropped in the source, so the level leaves no trace in the result. -/
def initLogger (table : Char → Char) (isTerm : Bool) (opts : loggerOptions) :
    Except Fatal Logger :=
  let lg : Logger := { out := .json }
  let logFmt := opts.Format.getD "auto"
  let sel := stringsTrimSpace (stringsToLower table logFmt)
  let doConsole : Except Fatal Bool :=
    if sel = "" ∨ sel = "auto" then .ok isTerm
    else if sel = "console" then .ok true
    else .error (.msgf "unknown log format: %q" logFmt)
  match doConsole with
  | .error f => .error f
  | .ok doConsole =>
    if doConsole then
      let col := stringsToLower table (opts.Color.getD "auto")
      let doColor :=
        if col = "" ∨ col = "auto" then isTerm
        else if col = "always" then true
        else if col = "never" then false
        else false
      .ok { lg with out := .console (!doColor) }
    else .ok lg

/-- The process-wide logging state: zerolog's global level and `log.Logger`. -/
structure LogState where
  /-- The level set by `zerolog.SetGlobalLevel`. -/
  GlobalLevel : Level
  /-- The global `log.Logger`. -/
  Logger : Logger
  deriving DecidableEq, Repr

/-- The function `initGlobalLogger`. -/
def initGlobalLogger (table : Char → Char) (isTerm : Bool) (opts : loggerOptions) :
    Except Fatal LogState :=
  let logLvl := opts.Level.getD FatalLevel
  let opts := { opts with Level := some logLvl }
  match initLogger table isTerm opts with
  | .error f => .error f
  | .ok lg => .ok { GlobalLevel := logLvl, Logger := lg }

/-- The function `setupLogger`: what it writes to standard output, and the logging state
it installs or the fatal event that ends the process. `ParseLevel` is
`zerolog.ParseLevel`. -/
def setupLogger (ParseLevel : String → Except GoError Level) (table : Char → Char)
    (isTerm : Bool) (cmd : Cmd) : String × Except Fatal LogState :=
  let stdout := "setupLogger" ++ "\n"
  match ParseLevel cmd.logLevel with
  | .error err => (stdout, .error (.err err))
  | .ok logLevel =>
    let logFormat := cmd.logFormat
    let logColor := cmd.logColor
    let logColor := if cmd.logColorAlways then "always" else logColor
    let opts : loggerOptions :=
      { Level := some logLevel, Format := some logFormat, Color := some logColor }
    (stdout, initGlobalLogger table isTerm opts)

/-! ## The fetch engine and the `do` command -/

/-- The values of `scraper.DoOption` that the command builds. -/
inductive DoOption where
  | OptDoBrowser
  | OptDoReplace
  deriving DecidableEq, Repr

/-- The values of `blob.BucketOption` that the command builds. -/
inductive BucketOption where
  | OptBucketCacheDir (CacheDir : String)
  | OptBucketNoCache
  deriving DecidableEq, Repr

/-- An `http.Header`, a Go map from a name to its values: the entries, one per name, in
the order in which `range` visits them. -/
abbrev Header := List (String × List String)

/-- The request of a page, as far as the command reads it. -/
structure Request where
  /-- Field `Method`. -/
  Method : String
  /-- Field `URL`. -/
  URL : String
  /-- Field `Header`. -/
  Header : Header
  deriving DecidableEq, Repr

/-- The response of a page. `Body` is the text `string(page.Response.Body)`. -/
structure Response where
  /-- Field `StatusCode`. -/
  StatusCode : Int
  /-- Field `Header`. -/
  Header : Header
  /-- Field `Body`. -/
  Body : String
  deriving DecidableEq, Repr

/-- The page returned by the fetch engine. -/
structure Page where
  /-- Field `Request`. -/
  Request : Request
  /-- Field `Response`. -/
  Response : Response
  deriving DecidableEq, Repr

/-- The collaborators outside the repository that the two files call. -/
structure Host where
  /-- The type `*blob.Bucket`. -/
  Bucket : Type
  /-- The type `*scraper.Scraper`. -/
  Scraper : Type
  /-- The Unicode lower-case table behind `strings.ToLower`. -/
  table : Char → Char
  /-- The result of `isatty.IsTerminal(os.Stderr.Fd())`. -/
  isTerm : Bool
  /-- The function `zerolog.ParseLevel`. -/
  ParseLevel : String → Except GoError Level
  /-- The function `blob.NewBucket`, applied to the URL and the options. -/
  NewBucket : String → List BucketOption → Except GoError Bucket
  /-- The function `scraper.NewScraper`. -/
  NewScraper : Bucket → Except GoError Scraper
  /-- The function `http.NewRequest`, applied to the method and the URL. -/
  NewRequest : String → String → Except GoError Request
  /-- The method `Do` of the fetch engine. -/
  Do : Scraper → Request → List DoOption → Except GoError Page

/-- The function `newScraper`. -/
def newScraper (h : Host) (cmd : Cmd) (_args : List String) : Except GoError h.Scraper :=
  let bucketURL := cmd.bucketURL
  let cacheDir := cmd.cacheDir
  let noCache := cmd.noCache
  let opts : List BucketOption := []
  let opts := if cacheDir ≠ "" then opts ++ [.OptBucketCacheDir cacheDir] else opts
  let opts := if noCache then opts ++ [.OptBucketNoCache] else opts
  match h.NewBucket bucketURL opts with
  | .error err => .error (.wrapf "failed to create bucket: " err)
  | .ok blob =>
    match h.NewScraper blob with
    | .error err => .error (.wrapf "failed to create scraper: " err)
    | .ok sc => .ok sc

/-- A log event handed to the global logger: its level, the `opts` field when the event
has one, and its message. -/
structure LogEvent where
  /-- The level of the event. -/
  level : Level
  /-- The value of the field `opts`. -/
  opts : Option (List DoOption)
  /-- The message. -/
  msg : String
  deriving DecidableEq, Repr

/-- What a call of `doRunE` returns: `nil`, an error, or a run-time panic. -/
inductive Ret where
  | nil
  | error (e : GoError)
  | panic
  deriving DecidableEq, Repr

/-- The observable behaviour of one call of `doRunE`. -/
structure Outcome where
  /-- The value returned. -/
  ret : Ret
  /-- What the call wrote to standard output. -/
  stdout : String
  /-- The log events, in order. -/
  logs : List LogEvent
  /-- The calls of `http.NewRequest`: method and URL. -/
  requests : List (String × String)
  /-- The calls of the engine's `Do`: request, options and result. -/
  doCalls : List (Request × List DoOption × Except GoError Page)

/-- The loop `for k, v := range hdr` printing one line per entry with
`fmt.Printf(mark + " %s: %s\n", k, strings.Join(v, ", "))`. -/
def printHeader (mark : String) (hdr : Header) (stdout : String) : String :=
  hdr.foldl (fun out kv => out ++ (mark ++ " " ++ kv.1 ++ ": " ++ stringsJoin kv.2 ", " ++ "\n"))
    stdout

/-- The function `doRunE`. -/
def doRunE (h : Host) (cmd : Cmd) (args : List String) : Outcome :=
  match newScraper h cmd args with
  | .error err =>
    { ret := .error (.wrapf "failed to create scraper: " err), stdout := "", logs := [],
      requests := [], doCalls := [] }
  | .ok sc =>
    let method := cmd.method
    let browser := cmd.browser
    let forceRefetch := cmd.forceRefetch
    let head := cmd.head
    let method := if head then "HEAD" else method
    match args with
    | [] => { ret := .panic, stdout := "", logs := [], requests := [], doCalls := [] }
    | url :: _ =>
      match h.NewRequest method url with
      | .error err =>
        { ret := .error (.wrapf "failed to create request: " err), stdout := "", logs := [],
          requests := [(method, url)], doCalls := [] }
      | .ok req =>
        let opts : List DoOption := []
        let opts := if browser then opts ++ [.OptDoBrowser] else opts
        let opts := if forceRefetch then opts ++ [.OptDoReplace] else opts
        let logs : List LogEvent := [⟨InfoLevel, some opts, "scraping " ++ url⟩]
        match h.Do sc req opts with
        | .error err =>
          { ret := .error (.wrapf "failed to scrape: " err), stdout := "", logs := logs,
            requests := [(method, url)], doCalls := [(req, opts, .error err)] }
        | .ok page =>
          let logs :=
            if page.Response.StatusCode ≥ 400 then
              logs ++ [⟨ErrorLevel, none,
                "non-200 status code: " ++ toString page.Response.StatusCode⟩]
            else
              logs ++ [⟨InfoLevel, none, "status code: " ++ toString page.Response.StatusCode⟩]
          let includeHeaders := cmd.includeHeaders
          let stdout := ""
          let stdout :=
            if includeHeaders || head then
              let stdout := printHeader ">" page.Request.Header stdout
              let stdout := if page.Request.Header.length > 0 then stdout ++ "\n" else stdout
              let stdout := printHeader "<" page.Response.Header stdout
              let stdout := if page.Response.Header.length > 0 then stdout ++ "\n" else stdout
              stdout
            else stdout
          let out := stringsTrimSpace page.Response.Body
          let stdout := if out ≠ "" ∧ !head then stdout ++ out ++ "\n" else stdout
          { ret := .nil, stdout := stdout, logs := logs, requests := [(method, url)],
            doCalls := [(req, opts, .ok page)] }

/-- What a whole process shows: its standard output and its exit code. -/
structure Proc where
  /-- Everything written to standard output. -/
  stdout : String
  /-- The exit code. -/
  exitCode : Nat
  deriving DecidableEq, Repr

/-- The function `Execute` on a command line that selects the `do` command. Cobra checks
the arguments with `doCmd.Args`, runs the `PersistentPreRunE` hook of the root command,
then `doCmd.RunE`; an error makes `Execute` exit with code 1, a fatal log event exits with
code 1 on the spot, and a panic ends the process with code 2. -/
def Execute (h : Host) (cmd : Cmd) (args : List String) : Proc :=
  if args.length = 0 then { stdout := "", exitCode := 1 }
  else
    match setupLogger h.ParseLevel h.table h.isTerm cmd with
    | (stdout, .error _) => { stdout := stdout, exitCode := 1 }
    | (stdout, .ok _) =>
      let o := doRunE h cmd args
      match o.ret with
      | .nil => { stdout := stdout ++ o.stdout, exitCode := 0 }
      | .error _ => { stdout := stdout ++ o.stdout, exitCode := 1 }
      | .panic => { stdout := stdout ++ o.stdout, exitCode := 2 }

/-! ## A sample host -/

/-- A level parser that knows the lower-case level names. -/
def sampleParseLevel (s : String) : Except GoError Level :=
  if s = "trace" then .ok (-1)
  else if s = "debug" then .ok 0
  else if s = "info" then .ok 1
  else if s = "warn" then .ok 2
  else if s = "error" then .ok 3
  else if s = "fatal" then .ok 4
  else if s = "panic" then .ok 5
  else .error (.new "Unknown Level String")

/-- A host whose standard error is `isTerm`, whose bucket constructor accepts the `file`
and `s3` schemes, whose request constructor rejects a method with a blank in it, and whose
engine answers every request with `answer`. -/
def sampleHost (isTerm : Bool) (answer : Except GoError Page) : Host where
  Bucket := String
  Scraper := String
  table := fun c => c
  isTerm := isTerm
  ParseLevel := sampleParseLevel
  NewBucket := fun url _ =>
    if "file://".data.isPrefixOf url.data ∨ "s3://".data.isPrefixOf url.data then .ok url
    else .error (.new "unknown scheme")
  NewScraper := fun b => .ok b
  NewRequest := fun method url =>
    if method.data.contains ' ' then .error (.new "net/http: invalid method")
    else .ok { Method := method, URL := url, Header := [] }
  Do := fun _ _ _ => answer

/-- The flags with their default values, for the configuration root `/home/u/.config/scraper`. -/
def defaultCmd : Cmd where
  bucketURL := "file:///home/u/.config/scraper/bucket"
  cacheDir := "/home/u/.config/scraper/cache"
  noCache := false
  logLevel := "fatal"
  logFormat := "auto"
  logColor := "auto"
  logColorAlways := false
  browser := false
  method := "GET"
  forceRefetch := false
  includeHeaders := false
  head := false

/-- A page with the given response and a request that carries one header. -/
def samplePage (status : Int) (hdr : Header) (body : String) : Page where
  Request := { Method := "GET", URL := "https://example.com", Header := [("Accept", ["*/*"])] }
  Response := { StatusCode := status, Header := hdr, Body := body }

/-! ## The rendering as the specification words it -/

/-- The specification's header line: the mark, the name, and the values joined by `", "`. -/
def specHeaderLine (mark : String) (kv : String × List String) : String :=
  mark ++ " " ++ kv.1 ++ ": " ++ stringsJoin kv.2 ", "

/-- The text made of the given lines, each ended by a newline. -/
def specLines : List String → String
  | [] => ""
  | l :: ls => l ++ "\n" ++ specLines ls

/-- The specification's header block: one line per header, then one blank line when there
is at least one header. -/
def specHeaderBlock (mark : String) (hdr : Header) : String :=
  specLines (hdr.map (specHeaderLine mark)) ++ (if hdr = [] then "" else "\n")

/-- The specification's header rendering: the request block, then the response block. -/
def specHeaders (reqHdr respHdr : Header) : String :=
  specHeaderBlock ">" reqHdr ++ specHeaderBlock "<" respHdr

/-- The specification's body rendering: the trimmed body as one newline-terminated line,
nothing when the trimmed body is empty. -/
def specBody (body : String) : String :=
  if stringsTrimSpace body = "" then "" else stringsTrimSpace body ++ "\n"

/-- The specification's option list: the browser option when `--browser` is set, then the
force-replace option when `--force-refetch` is set. -/
def specOpts (browser forceRefetch : Bool) : List DoOption :=
  (if browser then [DoOption.OptDoBrowser] else []) ++
    (if forceRefetch then [DoOption.OptDoReplace] else [])

/-- The specification's status event: error severity from 400 on, info severity below. -/
def specStatusEvent (status : Int) : LogEvent :=
  if status ≥ 400 then ⟨ErrorLevel, none, "non-200 status code: " ++ toString status⟩
  else ⟨InfoLevel, none, "status code: " ++ toString status⟩

/-- The method the request is built with: `HEAD` under `--head`, the `-X` value otherwise. -/
def specMethod (cmd : Cmd) : String :=
  if cmd.head then "HEAD" else cmd.method

/-! ## Lemmas on the rendering -/

theorem printHeader_eq (mark : String) (hdr : Header) (stdout : String) :
    printHeader mark hdr stdout = stdout ++ specLines (hdr.map (specHeaderLine mark)) := by
  unfold printHeader
  induction hdr generalizing stdout with
  | nil => simp [specLines]
  | cons kv rest ih =>
    simp only [List.foldl_cons, List.map_cons, specLines]
    rw [ih]
    simp [specHeaderLine, String.append_assoc]

theorem printHeader_block (mark : String) (hdr : Header) (stdout : String) :
    (if hdr.length > 0 then printHeader mark hdr stdout ++ "\n" else printHeader mark hdr stdout)
      = stdout ++ specHeaderBlock mark hdr := by
  rw [printHeader_eq]
  cases hdr with
  | nil => simp [specHeaderBlock, specLines]
  | cons kv rest => simp [specHeaderBlock, String.append_assoc]

theorem specOpts_eq (browser forceRefetch : Bool) :
    (if forceRefetch then
        (if browser then ([] : List DoOption) ++ [DoOption.OptDoBrowser] else []) ++
          [DoOption.OptDoReplace]
      else (if browser then ([] : List DoOption) ++ [DoOption.OptDoBrowser] else []))
      = specOpts browser forceRefetch := by
  cases browser <;> cases forceRefetch <;> rfl

theorem doRunE_newScraper_error (h : Host) (cmd : Cmd) (args : List String) (e : GoError)
    (hsc : newScraper h cmd args = .error e) :
    doRunE h cmd args =
      { ret := .error (.wrapf "failed to create scraper: " e), stdout := "", logs := [],
        requests := [], doCalls := [] } := by
  unfold doRunE
  simp only [hsc]

theorem doRunE_no_args (h : Host) (cmd : Cmd) (sc : h.Scraper)
    (hsc : newScraper h cmd [] = .ok sc) :
    doRunE h cmd [] =
      { ret := .panic, stdout := "", logs := [], requests := [], doCalls := [] } := by
  unfold doRunE
  simp only [hsc]

theorem doRunE_newRequest_error (h : Host) (cmd : Cmd) (url : String) (rest : List String)
    (sc : h.Scraper) (e : GoError)
    (hsc : newScraper h cmd (url :: rest) = .ok sc)
    (hreq : h.NewRequest (specMethod cmd) url = .error e) :
    doRunE h cmd (url :: rest) =
      { ret := .error (.wrapf "failed to create request: " e), stdout := "", logs := [],
        requests := [(specMethod cmd, url)], doCalls := [] } := by
  unfold specMethod at hreq
  unfold doRunE
  simp only [hsc, hreq, specMethod]

theorem doRunE_do_error (h : Host) (cmd : Cmd) (url : String) (rest : List String)
    (sc : h.Scraper) (req : Request) (e : GoError)
    (hsc : newScraper h cmd (url :: rest) = .ok sc)
    (hreq : h.NewRequest (specMethod cmd) url = .ok req)
    (hdo : h.Do sc req (specOpts cmd.browser cmd.forceRefetch) = .error e) :
    doRunE h cmd (url :: rest) =
      { ret := .error (.wrapf "failed to scrape: " e), stdout := "",
        logs := [⟨InfoLevel, some (specOpts cmd.browser cmd.forceRefetch), "scraping " ++ url⟩],
        requests := [(specMethod cmd, url)],
        doCalls := [(req, specOpts cmd.browser cmd.forceRefetch, .error e)] } := by
  unfold specMethod at hreq
  unfold doRunE
  simp only [hsc, hreq, specOpts_eq, hdo, specMethod]

theorem doRunE_do_ok (h : Host) (cmd : Cmd) (url : String) (rest : List String)
    (sc : h.Scraper) (req : Request) (page : Page)
    (hsc : newScraper h cmd (url :: rest) = .ok sc)
    (hreq : h.NewRequest (specMethod cmd) url = .ok req)
    (hdo : h.Do sc req (specOpts cmd.browser cmd.forceRefetch) = .ok page) :
    doRunE h cmd (url :: rest) =
      { ret := .nil,
        stdout :=
          (if cmd.includeHeaders || cmd.head then
            specHeaders page.Request.Header page.Response.Header else "") ++
          (if cmd.head then "" else specBody page.Response.Body),
        logs := [⟨InfoLevel, some (specOpts cmd.browser cmd.forceRefetch), "scraping " ++ url⟩,
          specStatusEvent page.Response.StatusCode],
        requests := [(specMethod cmd, url)],
        doCalls := [(req, specOpts cmd.browser cmd.forceRefetch, .ok page)] } := by
  unfold specMethod at hreq
  unfold doRunE
  simp only [hsc, hreq, specOpts_eq, hdo, specMethod, printHeader_block]
  have hlogs : (if page.Response.StatusCode ≥ 400 then
        [(⟨InfoLevel, some (specOpts cmd.browser cmd.forceRefetch), "scraping " ++ url⟩ : LogEvent)]
          ++ [⟨ErrorLevel, none, "non-200 status code: " ++ toString page.Response.StatusCode⟩]
      else
        [(⟨InfoLevel, some (specOpts cmd.browser cmd.forceRefetch), "scraping " ++ url⟩ : LogEvent)]
          ++ [⟨InfoLevel, none, "status code: " ++ toString page.Response.StatusCode⟩])
      = [⟨InfoLevel, some (specOpts cmd.browser cmd.forceRefetch), "scraping " ++ url⟩,
          specStatusEvent page.Response.StatusCode] := by
    unfold specStatusEvent
    split <;> rfl
  rw [hlogs]
  congr 1
  unfold specBody specHeaders
  by_cases hb : stringsTrimSpace page.Response.Body = "" <;>
    cases cmd.head <;> cases cmd.includeHeaders <;> simp [hb, String.append_assoc]


/-- Every call of `doRunE` in which the engine returned a page went through the three
steps with success. -/
theorem doRunE_page (h : Host) (cmd : Cmd) (args : List String) (req : Request)
    (opts : List DoOption) (page : Page)
    (hc : (doRunE h cmd args).doCalls = [(req, opts, .ok page)]) :
    opts = specOpts cmd.browser cmd.forceRefetch ∧
    ∃ sc url rest, args = url :: rest ∧ newScraper h cmd args = .ok sc ∧
      h.NewRequest (specMethod cmd) url = .ok req ∧ h.Do sc req opts = .ok page := by
  cases hsc : newScraper h cmd args with
  | error e => rw [doRunE_newScraper_error h cmd args e hsc] at hc; simp at hc
  | ok sc =>
    cases args with
    | nil => rw [doRunE_no_args h cmd sc hsc] at hc; simp at hc
    | cons url rest =>
      cases hreq : h.NewRequest (specMethod cmd) url with
      | error e => rw [doRunE_newRequest_error h cmd url rest sc e hsc hreq] at hc; simp at hc
      | ok req0 =>
        cases hdo : h.Do sc req0 (specOpts cmd.browser cmd.forceRefetch) with
        | error e =>
          rw [doRunE_do_error h cmd url rest sc req0 e hsc hreq hdo] at hc; simp at hc
        | ok page0 =>
          rw [doRunE_do_ok h cmd url rest sc req0 page0 hsc hreq hdo] at hc
          simp only [List.cons.injEq, Prod.mk.injEq, Except.ok.injEq, and_true] at hc
          obtain ⟨h1, h2, h3⟩ := hc
          subst h1 h2 h3
          exact ⟨rfl, sc, url, rest, rfl, rfl, hreq, hdo⟩

/-- What `doRunE` returns, writes and logs when the engine returned a page. -/
theorem doRunE_page_outcome (h : Host) (cmd : Cmd) (args : List String) (req : Request)
    (opts : List DoOption) (page : Page)
    (hc : (doRunE h cmd args).doCalls = [(req, opts, .ok page)]) :
    (doRunE h cmd args).ret = .nil ∧
    (doRunE h cmd args).stdout =
      (if cmd.includeHeaders || cmd.head then
        specHeaders page.Request.Header page.Response.Header else "") ++
      (if cmd.head then "" else specBody page.Response.Body) ∧
    (doRunE h cmd args).requests = [(specMethod cmd, args.headD "")] ∧
    (doRunE h cmd args).logs =
      [⟨InfoLevel, some opts, "scraping " ++ args.headD ""⟩,
        specStatusEvent page.Response.StatusCode] := by
  obtain ⟨hopts, sc, url, rest, hargs, hsc, hreq, hdo⟩ := doRunE_page h cmd args req opts page hc
  subst hargs hopts
  rw [doRunE_do_ok h cmd url rest sc req page hsc hreq hdo]
  exact ⟨rfl, rfl, rfl, rfl⟩

/-- The engine is called at most once, and only with the option list of the two flags. -/
theorem doRunE_doCalls (h : Host) (cmd : Cmd) (args : List String) :
    (doRunE h cmd args).doCalls = [] ∨
    ∃ req res, (doRunE h cmd args).doCalls = [(req, specOpts cmd.browser cmd.forceRefetch, res)] := by
  cases hsc : newScraper h cmd args with
  | error e => rw [doRunE_newScraper_error h cmd args e hsc]; exact Or.inl rfl
  | ok sc =>
    cases args with
    | nil => rw [doRunE_no_args h cmd sc hsc]; exact Or.inl rfl
    | cons url rest =>
      cases hreq : h.NewRequest (specMethod cmd) url with
      | error e => rw [doRunE_newRequest_error h cmd url rest sc e hsc hreq]; exact Or.inl rfl
      | ok req0 =>
        cases hdo : h.Do sc req0 (specOpts cmd.browser cmd.forceRefetch) with
        | error e =>
          rw [doRunE_do_error h cmd url rest sc req0 e hsc hreq hdo]
          exact Or.inr ⟨req0, .error e, rfl⟩
        | ok page0 =>
          rw [doRunE_do_ok h cmd url rest sc req0 page0 hsc hreq hdo]
          exact Or.inr ⟨req0, .ok page0, rfl⟩

/-- A call of `doRunE` that returns an error has written nothing to standard output. -/
theorem doRunE_error_stdout (h : Host) (cmd : Cmd) (args : List String) (e : GoError)
    (hret : (doRunE h cmd args).ret = .error e) : (doRunE h cmd args).stdout = "" := by
  cases hsc : newScraper h cmd args with
  | error e => rw [doRunE_newScraper_error h cmd args e hsc]
  | ok sc =>
    cases args with
    | nil => rw [doRunE_no_args h cmd sc hsc]
    | cons url rest =>
      cases hreq : h.NewRequest (specMethod cmd) url with
      | error e => rw [doRunE_newRequest_error h cmd url rest sc e hsc hreq]
      | ok req0 =>
        cases hdo : h.Do sc req0 (specOpts cmd.browser cmd.forceRefetch) with
        | error e => rw [doRunE_do_error h cmd url rest sc req0 e hsc hreq hdo]
        | ok page0 =>
          rw [doRunE_do_ok h cmd url rest sc req0 page0 hsc hreq hdo] at hret
          simp at hret

/-- With at least one argument `doRunE` does not panic. -/
theorem doRunE_no_panic (h : Host) (cmd : Cmd) (url : String) (rest : List String) :
    (doRunE h cmd (url :: rest)).ret ≠ .panic := by
  cases hsc : newScraper h cmd (url :: rest) with
  | error e => rw [doRunE_newScraper_error h cmd _ e hsc]; simp
  | ok sc =>
    cases hreq : h.NewRequest (specMethod cmd) url with
    | error e => rw [doRunE_newRequest_error h cmd url rest sc e hsc hreq]; simp
    | ok req0 =>
      cases hdo : h.Do sc req0 (specOpts cmd.browser cmd.forceRefetch) with
      | error e => rw [doRunE_do_error h cmd url rest sc req0 e hsc hreq hdo]; simp
      | ok page0 => rw [doRunE_do_ok h cmd url rest sc req0 page0 hsc hreq hdo]; simp

/-- The exit code of `Execute` once the logger is set up: 0, 1 or 2 as `doRunE` returns
`nil`, an error or panics. -/
theorem Execute_exitCode (h : Host) (cmd : Cmd) (url : String) (rest : List String)
    (st : LogState) (hlog : (setupLogger h.ParseLevel h.table h.isTerm cmd).2 = .ok st) :
    (Execute h cmd (url :: rest)).exitCode =
      (match (doRunE h cmd (url :: rest)).ret with
        | .nil => 0
        | .error _ => 1
        | .panic => 2) ∧
    (Execute h cmd (url :: rest)).stdout =
      "setupLogger\n" ++ (doRunE h cmd (url :: rest)).stdout := by
  unfold Execute
  have hfst : (setupLogger h.ParseLevel h.table h.isTerm cmd).1 = "setupLogger\n" := by
    unfold setupLogger
    split <;> rfl
  rcases hs : setupLogger h.ParseLevel h.table h.isTerm cmd with ⟨out, res⟩
  rw [hs] at hlog hfst
  simp only at hlog hfst
  subst hlog hfst
  simp only [List.length_cons, Nat.add_one_ne_zero, if_false]
  cases (doRunE h cmd (url :: rest)).ret <;> exact ⟨rfl, rfl⟩

/-! ## The configuration directory -/

/-- C1: for every home directory, OS identifier and environment, `getConfigDir` returns the
path join of `XDG_CONFIG_HOME` and `scraper` on `linux` with the variable non-empty, of the
home directory, `.config` and `scraper` on `linux` with the variable unset or empty, of the
home directory, `Library`, `Preferences` and `scraper` on `darwin`, and of the home
directory, `.config` and `scraper` on every other OS; off `linux` the environment has no
influence on the result. -/
theorem getConfigDir_by_platform (Join : List String → String) (homedir GOOS : String)
    (environ : String → Option String) :
    (GOOS = "linux" → ∀ xdg, environ "XDG_CONFIG_HOME" = some xdg → xdg ≠ "" →
      getConfigDir Join (.ok homedir) GOOS environ = .ok (Join [xdg, "scraper"])) ∧
    (GOOS = "linux" →
      environ "XDG_CONFIG_HOME" = none ∨ environ "XDG_CONFIG_HOME" = some "" →
      getConfigDir Join (.ok homedir) GOOS environ = .ok (Join [homedir, ".config", "scraper"])) ∧
    (GOOS = "darwin" →
      getConfigDir Join (.ok homedir) GOOS environ =
        .ok (Join [homedir, "Library", "Preferences", "scraper"])) ∧
    (GOOS ≠ "linux" → GOOS ≠ "darwin" →
      getConfigDir Join (.ok homedir) GOOS environ = .ok (Join [homedir, ".config", "scraper"])) ∧
    (GOOS ≠ "linux" → ∀ environ2 : String → Option String,
      getConfigDir Join (.ok homedir) GOOS environ2 =
        getConfigDir Join (.ok homedir) GOOS environ) := by
  refine ⟨?_, ?_, ?_, ?_, ?_⟩
  · intro hos xdg hx hne
    simp [getConfigDir, osGetenv, hos, hx, hne, appName]
  · intro hos hx
    rcases hx with hx | hx <;> simp [getConfigDir, osGetenv, hos, hx, appName]
  · intro hos
    subst hos
    simp [getConfigDir, appName]
  · intro h1 h2
    simp [getConfigDir, h1, h2, appName]
  · intro h1 environ2
    simp [getConfigDir, h1]

/-- C1, on a Unix host with home directory `/home/u`: the four cases of the rule, and a
`darwin` result that ignores `XDG_CONFIG_HOME`. -/
theorem getConfigDir_by_platform_witness :
    getConfigDir filepathJoin (.ok "/home/u") "linux" (xdgEnviron (some "/xdg")) =
      .ok "/xdg/scraper" ∧
    getConfigDir filepathJoin (.ok "/home/u") "linux" (xdgEnviron (some "")) =
      .ok "/home/u/.config/scraper" ∧
    getConfigDir filepathJoin (.ok "/home/u") "darwin" (xdgEnviron (some "/xdg")) =
      .ok "/home/u/Library/Preferences/scraper" ∧
    getConfigDir filepathJoin (.ok "/home/u") "freebsd" (xdgEnviron (some "/xdg")) =
      .ok "/home/u/.config/scraper" ∧
    getConfigDir filepathJoin (.ok "/home/u") "darwin" (xdgEnviron none) =
      getConfigDir filepathJoin (.ok "/home/u") "darwin" (xdgEnviron (some "/xdg")) :=
  ⟨(getConfigDir_by_platform filepathJoin "/home/u" "linux" (xdgEnviron (some "/xdg"))).1
      rfl "/xdg" rfl (by decide),
    (getConfigDir_by_platform filepathJoin "/home/u" "linux" (xdgEnviron (some ""))).2.1
      rfl (Or.inr rfl),
    (getConfigDir_by_platform filepathJoin "/home/u" "darwin" (xdgEnviron (some "/xdg"))).2.2.1
      rfl,
    (getConfigDir_by_platform filepathJoin "/home/u" "freebsd"
      (xdgEnviron (some "/xdg"))).2.2.2.1 (by decide) (by decide),
    (getConfigDir_by_platform filepathJoin "/home/u" "darwin"
      (xdgEnviron (some "/xdg"))).2.2.2.2 (by decide) (xdgEnviron none)⟩

/-! ## The `do` command: method, headers and body -/

/-- C2: for every `-X` value and every `-i` value, once the scraper is built the request is
built with method `HEAD` when `--head` is set and with the `-X` value otherwise; and when
that request is built and the engine, called with it, returns a page, standard output is
the two header blocks alone under `--head`, whatever `-i` is, and without `--head` it is
the header blocks exactly when `--include` is set, followed by the body line. -/
theorem doRunE_head_forces_method_and_headers (h : Host) (cmd : Cmd) (url : String)
    (rest : List String) (sc : h.Scraper)
    (hsc : newScraper h cmd (url :: rest) = .ok sc) :
    (doRunE h cmd (url :: rest)).requests =
      [(if cmd.head then "HEAD" else cmd.method, url)] ∧
    ∀ req page,
      h.NewRequest (if cmd.head then "HEAD" else cmd.method) url = .ok req →
      h.Do sc req ((if cmd.browser then [DoOption.OptDoBrowser] else []) ++
        (if cmd.forceRefetch then [DoOption.OptDoReplace] else [])) = .ok page →
      (doRunE h cmd (url :: rest)).doCalls =
        [(req, (if cmd.browser then [DoOption.OptDoBrowser] else []) ++
          (if cmd.forceRefetch then [DoOption.OptDoReplace] else []), .ok page)] ∧
      (cmd.head = true → (doRunE h cmd (url :: rest)).stdout =
        specHeaders page.Request.Header page.Response.Header) ∧
      (cmd.head = false → cmd.includeHeaders = true → (doRunE h cmd (url :: rest)).stdout =
        specHeaders page.Request.Header page.Response.Header ++
          specBody page.Response.Body) ∧
      (cmd.head = false → cmd.includeHeaders = false → (doRunE h cmd (url :: rest)).stdout =
        specBody page.Response.Body) := by
  constructor
  · cases hreq : h.NewRequest (specMethod cmd) url with
    | error e => rw [doRunE_newRequest_error h cmd url rest sc e hsc hreq]; rfl
    | ok req0 =>
      cases hdo : h.Do sc req0 (specOpts cmd.browser cmd.forceRefetch) with
      | error e => rw [doRunE_do_error h cmd url rest sc req0 e hsc hreq hdo]; rfl
      | ok page0 => rw [doRunE_do_ok h cmd url rest sc req0 page0 hsc hreq hdo]; rfl
  · intro req page hreq hdo
    rw [doRunE_do_ok h cmd url rest sc req page hsc hreq hdo]
    refine ⟨rfl, ?_, ?_, ?_⟩
    · intro hh
      simp [hh]
    · intro hh hi
      simp [hh, hi]
    · intro hh hi
      simp [hh, hi]

/-- C2, on the sample host with a page that has one response header and the body `hello`:
`-X POST -I` sends `HEAD` and prints the header blocks without the body; `-X POST -i`
sends `POST` and prints the header blocks and then the body; `-X POST` alone sends `POST`
and prints the body only. -/
theorem doRunE_head_forces_method_and_headers_witness :
    ((doRunE (sampleHost false (.ok (samplePage 200 [("Content-Type", ["text/plain"])] "hello")))
        { defaultCmd with method := "POST", head := true } ["https://example.com"]).requests =
      [("HEAD", "https://example.com")] ∧
    (doRunE (sampleHost false (.ok (samplePage 200 [("Content-Type", ["text/plain"])] "hello")))
        { defaultCmd with method := "POST", head := true } ["https://example.com"]).stdout =
      "> Accept: */*\n\n< Content-Type: text/plain\n\n") ∧
    ((doRunE (sampleHost false (.ok (samplePage 200 [("Content-Type", ["text/plain"])] "hello")))
        { defaultCmd with method := "POST", includeHeaders := true }
        ["https://example.com"]).requests =
      [("POST", "https://example.com")] ∧
    (doRunE (sampleHost false (.ok (samplePage 200 [("Content-Type", ["text/plain"])] "hello")))
        { defaultCmd with method := "POST", includeHeaders := true }
        ["https://example.com"]).stdout =
      "> Accept: */*\n\n< Content-Type: text/plain\n\nhello\n") ∧
    ((doRunE (sampleHost false (.ok (samplePage 200 [("Content-Type", ["text/plain"])] "hello")))
        { defaultCmd with method := "POST" } ["https://example.com"]).requests =
      [("POST", "https://example.com")] ∧
    (doRunE (sampleHost false (.ok (samplePage 200 [("Content-Type", ["text/plain"])] "hello")))
        { defaultCmd with method := "POST" } ["https://example.com"]).stdout = "hello\n") :=
  have w1 := doRunE_head_forces_method_and_headers
    (sampleHost false (.ok (samplePage 200 [("Content-Type", ["text/plain"])] "hello")))
    { defaultCmd with method := "POST", head := true } "https://example.com" []
    "file:///home/u/.config/scraper/bucket" rfl
  have w2 := doRunE_head_forces_method_and_headers
    (sampleHost false (.ok (samplePage 200 [("Content-Type", ["text/plain"])] "hello")))
    { defaultCmd with method := "POST", includeHeaders := true } "https://example.com" []
    "file:///home/u/.config/scraper/bucket" rfl
  have w3 := doRunE_head_forces_method_and_headers
    (sampleHost false (.ok (samplePage 200 [("Content-Type", ["text/plain"])] "hello")))
    { defaultCmd with method := "POST" } "https://example.com" []
    "file:///home/u/.config/scraper/bucket" rfl
  ⟨⟨w1.1, (w1.2 { Method := "HEAD", URL := "https://example.com", Header := [] }
      (samplePage 200 [("Content-Type", ["text/plain"])] "hello") rfl rfl).2.1 rfl⟩,
    ⟨w2.1, (w2.2 { Method := "POST", URL := "https://example.com", Header := [] }
      (samplePage 200 [("Content-Type", ["text/plain"])] "hello") rfl rfl).2.2.1 rfl rfl⟩,
    ⟨w3.1, (w3.2 { Method := "POST", URL := "https://example.com", Header := [] }
      (samplePage 200 [("Content-Type", ["text/plain"])] "hello") rfl rfl).2.2.2 rfl rfl⟩⟩

/-- C3, as stated, fails: with `-X HEAD` and without `--head` the request is built with
method `HEAD` and the non-empty body `hello` is printed. -/
theorem doRunE_method_head_prints_body :
    (doRunE (sampleHost false (.ok (samplePage 200 [] "hello")))
        { defaultCmd with method := "HEAD" } ["https://example.com"]).requests =
      [("HEAD", "https://example.com")] ∧
    (doRunE (sampleHost false (.ok (samplePage 200 [] "hello")))
        { defaultCmd with method := "HEAD" } ["https://example.com"]).stdout = "hello\n" := by
  decide

/-- C3, amended: for every call in which the engine returns a page, under `--head` standard
output is the two header blocks and nothing of the body, whatever the body is; the guard is
the flag and not the method, so without `--head` the body line is printed after the headers
for every `-X` value, `HEAD` included. -/
theorem doRunE_body_suppressed_by_head_flag (h : Host) (cmd : Cmd) (args : List String)
    (req : Request) (opts : List DoOption) (page : Page)
    (hc : (doRunE h cmd args).doCalls = [(req, opts, .ok page)]) :
    (cmd.head = true → (doRunE h cmd args).stdout =
      specHeaders page.Request.Header page.Response.Header) ∧
    (cmd.head = false → (doRunE h cmd args).stdout =
      (if cmd.includeHeaders then specHeaders page.Request.Header page.Response.Header
        else "") ++
      (if stringsTrimSpace page.Response.Body = "" then ""
        else stringsTrimSpace page.Response.Body ++ "\n")) := by
  obtain ⟨_, hout, _, _⟩ := doRunE_page_outcome h cmd args req opts page hc
  constructor
  · intro hh
    rw [hout, hh]
    simp
  · intro hh
    rw [hout, hh]
    simp [specBody]

/-- C3, amended, on the sample host: `-I` with the body `hello` prints the response header
block only. -/
theorem doRunE_body_suppressed_by_head_flag_witness :
    (doRunE (sampleHost false (.ok (samplePage 200 [("Content-Type", ["text/plain"])] "hello")))
        { defaultCmd with head := true } ["https://example.com"]).stdout =
      "> Accept: */*\n\n< Content-Type: text/plain\n\n" :=
  (doRunE_body_suppressed_by_head_flag
    (sampleHost false (.ok (samplePage 200 [("Content-Type", ["text/plain"])] "hello")))
    { defaultCmd with head := true } ["https://example.com"]
    { Method := "HEAD", URL := "https://example.com", Header := [] } []
    (samplePage 200 [("Content-Type", ["text/plain"])] "hello") rfl).1 rfl

/-- C4: on `scraper do https://example.com` with the default flags and a page of status 200
and body `hello`, the process exits with code 0 and its standard output is
`setupLogger\nhello\n`, which is not `hello\n`: the line printed by `setupLogger` comes
before the body. -/
theorem Execute_stdout_starts_with_setupLogger :
    Execute (sampleHost false (.ok (samplePage 200 [] "hello"))) defaultCmd
        ["https://example.com"] = { stdout := "setupLogger\nhello\n", exitCode := 0 } ∧
    (Execute (sampleHost false (.ok (samplePage 200 [] "hello"))) defaultCmd
        ["https://example.com"]).stdout ≠ "hello\n" ∧
    (doRunE (sampleHost false (.ok (samplePage 200 [] "hello"))) defaultCmd
        ["https://example.com"]).stdout = "hello\n" := by
  decide

/-- C5: for every page, whenever the scraper and the request are built and the engine,
called with that request, returns the page: when `--include` or `--head` is set standard
output starts with one line `> Name: v1, v2` per request header, then one blank line
exactly when there is a request header, then one line `< Name: v1, v2` per response header,
then one blank line exactly when there is a response header, the whole request block before
the response block and all of it before the body; when neither flag is set standard output
holds the body line only, with no header line and no blank line before it. -/
theorem doRunE_header_blocks (h : Host) (cmd : Cmd) (url : String) (rest : List String)
    (sc : h.Scraper) (req : Request) (page : Page)
    (hsc : newScraper h cmd (url :: rest) = .ok sc)
    (hreq : h.NewRequest (if cmd.head then "HEAD" else cmd.method) url = .ok req)
    (hdo : h.Do sc req ((if cmd.browser then [DoOption.OptDoBrowser] else []) ++
      (if cmd.forceRefetch then [DoOption.OptDoReplace] else [])) = .ok page) :
    (cmd.includeHeaders = true ∨ cmd.head = true →
      (doRunE h cmd (url :: rest)).stdout =
        specLines (page.Request.Header.map
          (fun kv => "> " ++ kv.1 ++ ": " ++ stringsJoin kv.2 ", ")) ++
        (if page.Request.Header = [] then "" else "\n") ++
        specLines (page.Response.Header.map
          (fun kv => "< " ++ kv.1 ++ ": " ++ stringsJoin kv.2 ", ")) ++
        (if page.Response.Header = [] then "" else "\n") ++
        (if cmd.head then ""
          else if stringsTrimSpace page.Response.Body = "" then ""
          else stringsTrimSpace page.Response.Body ++ "\n")) ∧
    (cmd.includeHeaders = false → cmd.head = false →
      (doRunE h cmd (url :: rest)).stdout =
        (if stringsTrimSpace page.Response.Body = "" then ""
          else stringsTrimSpace page.Response.Body ++ "\n")) := by
  rw [doRunE_do_ok h cmd url rest sc req page hsc hreq hdo]
  have hline : ∀ mark : String, specHeaderLine mark =
      fun kv => mark ++ " " ++ kv.1 ++ ": " ++ stringsJoin kv.2 ", " := fun _ => rfl
  refine ⟨?_, ?_⟩
  · intro hflag
    have hb : (cmd.includeHeaders || cmd.head) = true := by
      rcases hflag with hf | hf <;> simp [hf]
    simp only [hb, if_true, specHeaders, specHeaderBlock, specBody, hline,
      String.append_assoc]
    rfl
  · intro h1 h2
    simp [h1, h2, specBody]

/-- C5, on the sample host with a page that has one request header, two response headers
and the body ` hello\n`: `-i` alone prints the request block, a blank line, the response
block, a blank line and then the body; `-I` alone prints the same two blocks and no body;
with neither flag only the body line is printed; and for a page without any header `-i`
prints no header line and no blank line. -/
theorem doRunE_header_blocks_witness :
    (doRunE (sampleHost false (.ok (samplePage 200
          [("Content-Type", ["text/plain"]), ("Vary", ["Accept", "Origin"])] " hello\n")))
        { defaultCmd with includeHeaders := true } ["https://example.com"]).stdout =
      "> Accept: */*\n\n< Content-Type: text/plain\n< Vary: Accept, Origin\n\nhello\n" ∧
    (doRunE (sampleHost false (.ok (samplePage 200
          [("Content-Type", ["text/plain"]), ("Vary", ["Accept", "Origin"])] " hello\n")))
        { defaultCmd with head := true } ["https://example.com"]).stdout =
      "> Accept: */*\n\n< Content-Type: text/plain\n< Vary: Accept, Origin\n\n" ∧
    (doRunE (sampleHost false (.ok (samplePage 200
          [("Content-Type", ["text/plain"]), ("Vary", ["Accept", "Origin"])] " hello\n")))
        defaultCmd ["https://example.com"]).stdout = "hello\n" ∧
    (doRunE (sampleHost false (.ok
          { Request := { Method := "GET", URL := "https://example.com", Header := [] },
            Response := { StatusCode := 200, Header := [], Body := "hello" } }))
        { defaultCmd with includeHeaders := true } ["https://example.com"]).stdout =
      "hello\n" :=
  ⟨(doRunE_header_blocks
      (sampleHost false (.ok (samplePage 200
        [("Content-Type", ["text/plain"]), ("Vary", ["Accept", "Origin"])] " hello\n")))
      { defaultCmd with includeHeaders := true } "https://example.com" []
      "file:///home/u/.config/scraper/bucket"
      { Method := "GET", URL := "https://example.com", Header := [] }
      (samplePage 200 [("Content-Type", ["text/plain"]), ("Vary", ["Accept", "Origin"])]
        " hello\n") rfl rfl rfl).1 (Or.inl rfl),
    (doRunE_header_blocks
      (sampleHost false (.ok (samplePage 200
        [("Content-Type", ["text/plain"]), ("Vary", ["Accept", "Origin"])] " hello\n")))
      { defaultCmd with head := true } "https://example.com" []
      "file:///home/u/.config/scraper/bucket"
      { Method := "HEAD", URL := "https://example.com", Header := [] }
      (samplePage 200 [("Content-Type", ["text/plain"]), ("Vary", ["Accept", "Origin"])]
        " hello\n") rfl rfl rfl).1 (Or.inr rfl),
    (doRunE_header_blocks
      (sampleHost false (.ok (samplePage 200
        [("Content-Type", ["text/plain"]), ("Vary", ["Accept", "Origin"])] " hello\n")))
      defaultCmd "https://example.com" []
      "file:///home/u/.config/scraper/bucket"
      { Method := "GET", URL := "https://example.com", Header := [] }
      (samplePage 200 [("Content-Type", ["text/plain"]), ("Vary", ["Accept", "Origin"])]
        " hello\n") rfl rfl rfl).2 rfl rfl,
    (doRunE_header_blocks
      (sampleHost false (.ok
        { Request := { Method := "GET", URL := "https://example.com", Header := [] },
          Response := { StatusCode := 200, Header := [], Body := "hello" } }))
      { defaultCmd with includeHeaders := true } "https://example.com" []
      "file:///home/u/.config/scraper/bucket"
      { Method := "GET", URL := "https://example.com", Header := [] }
      { Request := { Method := "GET", URL := "https://example.com", Header := [] },
        Response := { StatusCode := 200, Header := [], Body := "hello" } }
      rfl rfl rfl).1 (Or.inl rfl)⟩

/-! ## The logger -/

theorem stringsToLower_always (table : Char → Char) :
    stringsToLower table "always" = "always" := by
  rfl

theorem stringsToLower_auto (table : Char → Char) :
    stringsTrimSpace (stringsToLower table "auto") = "auto" := by
  rfl

theorem stringsToLower_console (table : Char → Char) :
    stringsTrimSpace (stringsToLower table "console") = "console" := by
  rfl

/-- C6, as stated, fails: with `--log-color-always`, `--log-color=never`, the default
format `auto` and a standard error that is no terminal, the logger writes JSON lines and
has no color. -/
theorem setupLogger_color_always_not_terminal :
    (setupLogger sampleParseLevel (fun c => c) false
        { defaultCmd with logColorAlways := true, logColor := "never" }).2 =
      .ok { GlobalLevel := FatalLevel, Logger := { out := .json } } ∧
    Logger.colorEnabled { out := .json } = false := by
  constructor <;> rfl

/-- C6, amended: for every invocation with `--log-color-always` whose level parses, whatever
`--log-color` is: when the format selects console rendering (it is `console` once
lower-cased and trimmed, or it is empty or `auto` and standard error is a terminal) the
logger is a console logger with color enabled; when the format is empty or `auto` and
standard error is no terminal the logger writes JSON lines without color. -/
theorem setupLogger_color_always (ParseLevel : String → Except GoError Level)
    (table : Char → Char) (isTerm : Bool) (cmd : Cmd) (lvl : Level)
    (hflag : cmd.logColorAlways = true) (hlvl : ParseLevel cmd.logLevel = .ok lvl) :
    (stringsTrimSpace (stringsToLower table cmd.logFormat) = "console" ∨
      ((stringsTrimSpace (stringsToLower table cmd.logFormat) = "" ∨
        stringsTrimSpace (stringsToLower table cmd.logFormat) = "auto") ∧ isTerm = true) →
      (setupLogger ParseLevel table isTerm cmd).2 =
        .ok { GlobalLevel := lvl, Logger := { out := .console false } } ∧
      Logger.colorEnabled { out := .console false } = true) ∧
    ((stringsTrimSpace (stringsToLower table cmd.logFormat) = "" ∨
        stringsTrimSpace (stringsToLower table cmd.logFormat) = "auto") ∧ isTerm = false →
      (setupLogger ParseLevel table isTerm cmd).2 =
        .ok { GlobalLevel := lvl, Logger := { out := .json } } ∧
      Logger.colorEnabled { out := .json } = false) := by
  have hal := stringsToLower_always table
  constructor
  · intro hsel
    refine ⟨?_, rfl⟩
    rcases hsel with hsel | ⟨hsel, ht⟩
    · simp [setupLogger, initGlobalLogger, initLogger, hflag, hlvl, hsel, hal]
    · subst ht
      rcases hsel with hsel | hsel <;>
        simp [setupLogger, initGlobalLogger, initLogger, hflag, hlvl, hsel, hal]
  · rintro ⟨hsel, ht⟩
    refine ⟨?_, rfl⟩
    subst ht
    rcases hsel with hsel | hsel <;>
      simp [setupLogger, initGlobalLogger, initLogger, hflag, hlvl, hsel]

/-- C6, amended, on the sample host: `--log-format=console --log-color=never
--log-color-always` on a standard error that is no terminal gives a colored console
logger. -/
theorem setupLogger_color_always_witness :
    (setupLogger sampleParseLevel (fun c => c) false
        { defaultCmd with logFormat := "console", logColor := "never",
                          logColorAlways := true }).2 =
      .ok { GlobalLevel := 4, Logger := { out := .console false } } ∧
    Logger.colorEnabled { out := .console false } = true :=
  (setupLogger_color_always sampleParseLevel (fun c => c) false
    { defaultCmd with logFormat := "console", logColor := "never", logColorAlways := true }
    4 rfl rfl).1 (Or.inl (by decide))

/-- C7, as stated, fails: the formats `CONSOLE` and ` console ` are neither `auto` nor
`console` and yet select console rendering, and the empty format is not fatal either: it
is read as `auto`. -/
theorem initLogger_accepts_other_spellings :
    initLogger (fun c => c) false { Level := none, Format := some "CONSOLE", Color := none } =
      .ok { out := .console true } ∧
    initLogger (fun c => c) false { Level := none, Format := some " console ", Color := none } =
      .ok { out := .console true } ∧
    initLogger (fun c => c) false { Level := none, Format := some "", Color := none } =
      .ok { out := .json } := by
  refine ⟨?_, ?_, ?_⟩ <;> rfl

/-- C7, amended: for every format `f` and terminal flag `t`, `initLogger` decides on `f`
lower-cased and trimmed: empty or `auto` gives console rendering iff `t`, `console` gives
console rendering whatever `t` is, and every other value is fatal with the unknown-format
event; in particular `auto` gives console rendering iff `t` and `console` always does. -/
theorem initLogger_format (table : Char → Char) (t : Bool) (lvl : Option Level) (f : String)
    (col : Option String) :
    (stringsTrimSpace (stringsToLower table f) = "" ∨
        stringsTrimSpace (stringsToLower table f) = "auto" →
      ∃ lg, initLogger table t { Level := lvl, Format := some f, Color := col } = .ok lg ∧
        lg.isConsole = t) ∧
    (stringsTrimSpace (stringsToLower table f) = "console" →
      ∃ lg, initLogger table t { Level := lvl, Format := some f, Color := col } = .ok lg ∧
        lg.isConsole = true) ∧
    (stringsTrimSpace (stringsToLower table f) ≠ "" →
      stringsTrimSpace (stringsToLower table f) ≠ "auto" →
      stringsTrimSpace (stringsToLower table f) ≠ "console" →
      initLogger table t { Level := lvl, Format := some f, Color := col } =
        .error (.msgf "unknown log format: %q" f)) ∧
    (f = "auto" →
      ∃ lg, initLogger table t { Level := lvl, Format := some f, Color := col } = .ok lg ∧
        lg.isConsole = t) ∧
    (f = "console" →
      ∃ lg, initLogger table t { Level := lvl, Format := some f, Color := col } = .ok lg ∧
        lg.isConsole = true) := by
  have key1 : stringsTrimSpace (stringsToLower table f) = "" ∨
        stringsTrimSpace (stringsToLower table f) = "auto" →
      ∃ lg, initLogger table t { Level := lvl, Format := some f, Color := col } = .ok lg ∧
        lg.isConsole = t := by
    intro hsel
    cases t
    · refine ⟨{ out := .json }, ?_, rfl⟩
      rcases hsel with hsel | hsel <;> simp [initLogger, hsel]
    · rcases hsel with hsel | hsel <;> simp [initLogger, hsel, Logger.isConsole]
  have key2 : stringsTrimSpace (stringsToLower table f) = "console" →
      ∃ lg, initLogger table t { Level := lvl, Format := some f, Color := col } = .ok lg ∧
        lg.isConsole = true := by
    intro hsel
    simp [initLogger, hsel, Logger.isConsole]
  refine ⟨key1, key2, ?_, ?_, ?_⟩
  · intro h1 h2 h3
    simp [initLogger, h1, h2, h3]
  · intro hf
    subst hf
    exact key1 (Or.inr (stringsToLower_auto table))
  · intro hf
    subst hf
    exact key2 (stringsToLower_console table)

/-- C7, amended, at the format `json` on a terminal: the call is fatal. -/
theorem initLogger_format_witness :
    initLogger (fun c => c) true { Level := none, Format := some "json", Color := none } =
      .error (.msgf "unknown log format: %q" "json") :=
  (initLogger_format (fun c => c) true none "json" none).2.2.1
    (by decide) (by decide) (by decide)

/-! ## The `do` command: options, status code and errors -/

/-- C8: for every pair of flag values, every call of the engine's `Do` gets the option list
that holds the browser option iff `--browser` is set and the force-replace option iff
`--force-refetch` is set, the browser option first: the list is empty, the browser option
alone, the force-replace option alone, or the browser option followed by the force-replace
option; the logged `opts` field is the same list and `Do` is called at most once. -/
theorem doRunE_option_list (h : Host) (cmd : Cmd) (args : List String)
    (call : Request × List DoOption × Except GoError Page)
    (hmem : call ∈ (doRunE h cmd args).doCalls) :
    call.2.1 =
      (if cmd.browser then [DoOption.OptDoBrowser] else []) ++
        (if cmd.forceRefetch then [DoOption.OptDoReplace] else []) ∧
    (cmd.browser = false → cmd.forceRefetch = false → call.2.1 = []) ∧
    (cmd.browser = true → cmd.forceRefetch = false → call.2.1 = [DoOption.OptDoBrowser]) ∧
    (cmd.browser = false → cmd.forceRefetch = true → call.2.1 = [DoOption.OptDoReplace]) ∧
    (cmd.browser = true → cmd.forceRefetch = true →
      call.2.1 = [DoOption.OptDoBrowser, DoOption.OptDoReplace]) ∧
    (doRunE h cmd args).doCalls = [call] ∧
    (∀ ev ∈ (doRunE h cmd args).logs, ∀ o, ev.opts = some o → o = call.2.1) := by
  have hopts : call.2.1 = specOpts cmd.browser cmd.forceRefetch ∧
      (doRunE h cmd args).doCalls = [call] := by
    rcases doRunE_doCalls h cmd args with h0 | ⟨req, res, h1⟩
    · rw [h0] at hmem
      simp at hmem
    · rw [h1] at hmem
      simp only [List.mem_singleton] at hmem
      subst hmem
      exact ⟨rfl, h1⟩
  obtain ⟨hopts, hone⟩ := hopts
  refine ⟨hopts, ?_, ?_, ?_, ?_, hone, ?_⟩
  · intro hb hf
    rw [hopts, hb, hf]
    rfl
  · intro hb hf
    rw [hopts, hb, hf]
    rfl
  · intro hb hf
    rw [hopts, hb, hf]
    rfl
  · intro hb hf
    rw [hopts, hb, hf]
    rfl
  · intro ev hev o ho
    obtain ⟨req, o2, res⟩ := call
    simp only at hopts
    subst hopts
    cases hsc : newScraper h cmd args with
    | error e => rw [doRunE_newScraper_error h cmd args e hsc] at hone; simp at hone
    | ok sc =>
      cases args with
      | nil => rw [doRunE_no_args h cmd sc hsc] at hone; simp at hone
      | cons url rest =>
        cases hreq : h.NewRequest (specMethod cmd) url with
        | error e =>
          rw [doRunE_newRequest_error h cmd url rest sc e hsc hreq] at hone; simp at hone
        | ok req0 =>
          cases hdo : h.Do sc req0 (specOpts cmd.browser cmd.forceRefetch) with
          | error e =>
            rw [doRunE_do_error h cmd url rest sc req0 e hsc hreq hdo] at hev
            simp only [List.mem_singleton] at hev
            subst hev
            simp only [Option.some.injEq] at ho
            exact ho.symm
          | ok page0 =>
            rw [doRunE_do_ok h cmd url rest sc req0 page0 hsc hreq hdo] at hev
            simp only [List.mem_cons, List.mem_singleton, List.not_mem_nil, or_false] at hev
            rcases hev with hev | hev
            · subst hev
              simp only [Option.some.injEq] at ho
              exact ho.symm
            · subst hev
              unfold specStatusEvent at ho
              split at ho <;> simp at ho

/-- C8, on the sample host: `--browser --force-refetch` passes the browser option and then
the force-replace option. -/
theorem doRunE_option_list_witness :
    (doRunE (sampleHost false (.ok (samplePage 200 [] "hello")))
        { defaultCmd with browser := true, forceRefetch := true }
        ["https://example.com"]).doCalls =
      [({ Method := "GET", URL := "https://example.com", Header := [] },
        [DoOption.OptDoBrowser, DoOption.OptDoReplace],
        .ok (samplePage 200 [] "hello"))] :=
  (doRunE_option_list (sampleHost false (.ok (samplePage 200 [] "hello")))
    { defaultCmd with browser := true, forceRefetch := true } ["https://example.com"]
    ({ Method := "GET", URL := "https://example.com", Header := [] },
      [DoOption.OptDoBrowser, DoOption.OptDoReplace], .ok (samplePage 200 [] "hello"))
    (List.Mem.head [])).2.2.2.2.2.1

/-- C9: for every page the engine returns and every status code, `doRunE` returns `nil`,
the process exits with code 0 once the logger is set up, and standard output is the same
as for any other returned page with the same headers and body under the same flags; the
status code selects the level of the second log event only, error from 400 on and info
below. -/
theorem doRunE_status_is_diagnostic (h h2 : Host) (cmd : Cmd) (args args2 : List String)
    (req req2 : Request) (opts opts2 : List DoOption) (page page2 : Page)
    (hc : (doRunE h cmd args).doCalls = [(req, opts, .ok page)])
    (hc2 : (doRunE h2 cmd args2).doCalls = [(req2, opts2, .ok page2)])
    (hreq : page2.Request.Header = page.Request.Header)
    (hresp : page2.Response.Header = page.Response.Header)
    (hbody : page2.Response.Body = page.Response.Body) :
    (doRunE h cmd args).ret = .nil ∧
    (doRunE h2 cmd args2).stdout = (doRunE h cmd args).stdout ∧
    (doRunE h cmd args).logs.map (fun ev => ev.level) =
      [InfoLevel, if page.Response.StatusCode ≥ 400 then ErrorLevel else InfoLevel] ∧
    (∀ st, (setupLogger h.ParseLevel h.table h.isTerm cmd).2 = .ok st →
      (Execute h cmd args).exitCode = 0) := by
  obtain ⟨hret, hout, _, hlogs⟩ := doRunE_page_outcome h cmd args req opts page hc
  obtain ⟨_, hout2, _, _⟩ := doRunE_page_outcome h2 cmd args2 req2 opts2 page2 hc2
  refine ⟨hret, ?_, ?_, ?_⟩
  · rw [hout, hout2, hreq, hresp, hbody]
  · rw [hlogs]
    unfold specStatusEvent
    split <;> rfl
  · intro st hst
    obtain ⟨_, _, url, rest, hargs, _⟩ := doRunE_page h cmd args req opts page hc
    subst hargs
    rw [(Execute_exitCode h cmd url rest st hst).1, hret]

/-- C9, on the sample host: status 404 and status 200 with the body `hello` give the same
standard output. -/
theorem doRunE_status_is_diagnostic_witness :
    (doRunE (sampleHost false (.ok (samplePage 200 [] "hello"))) defaultCmd
        ["https://example.com"]).stdout =
    (doRunE (sampleHost false (.ok (samplePage 404 [] "hello"))) defaultCmd
        ["https://example.com"]).stdout ∧
    (doRunE (sampleHost false (.ok (samplePage 404 [] "hello"))) defaultCmd
        ["https://example.com"]).logs.map (fun ev => ev.level) = [1, 3] ∧
    (Execute (sampleHost false (.ok (samplePage 404 [] "hello"))) defaultCmd
        ["https://example.com"]).exitCode = 0 :=
  have w := doRunE_status_is_diagnostic
    (sampleHost false (.ok (samplePage 404 [] "hello")))
    (sampleHost false (.ok (samplePage 200 [] "hello"))) defaultCmd
    ["https://example.com"] ["https://example.com"]
    { Method := "GET", URL := "https://example.com", Header := [] }
    { Method := "GET", URL := "https://example.com", Header := [] } [] []
    (samplePage 404 [] "hello") (samplePage 200 [] "hello") rfl rfl rfl rfl rfl
  ⟨w.2.1, w.2.2.1, w.2.2.2 _ rfl⟩

/-- C10: for every call of `doRunE` with at least one argument: a failed scraper
construction returns the error wrapped with `failed to create scraper: ` without building a
request or calling `Do`; a failed request construction returns it wrapped with
`failed to create request: ` without calling `Do`; a failed `Do` returns it wrapped with
`failed to scrape: ` after that single call; when the three steps succeed the call returns
`nil`. `Do` is called at most once, an error return leaves standard output empty, and once
the logger is set up the process exits with code 1 exactly when `doRunE` returns an error
and with code 0 exactly when it returns `nil`. -/
theorem doRunE_error_paths (h : Host) (cmd : Cmd) (url : String) (rest : List String) :
    (∀ e, newScraper h cmd (url :: rest) = .error e →
      (doRunE h cmd (url :: rest)).ret = .error (.wrapf "failed to create scraper: " e) ∧
      (doRunE h cmd (url :: rest)).stdout = "" ∧
      (doRunE h cmd (url :: rest)).requests = [] ∧
      (doRunE h cmd (url :: rest)).doCalls = []) ∧
    (∀ sc e, newScraper h cmd (url :: rest) = .ok sc →
      h.NewRequest (if cmd.head then "HEAD" else cmd.method) url = .error e →
      (doRunE h cmd (url :: rest)).ret = .error (.wrapf "failed to create request: " e) ∧
      (doRunE h cmd (url :: rest)).stdout = "" ∧
      (doRunE h cmd (url :: rest)).doCalls = []) ∧
    (∀ sc req e, newScraper h cmd (url :: rest) = .ok sc →
      h.NewRequest (if cmd.head then "HEAD" else cmd.method) url = .ok req →
      h.Do sc req ((if cmd.browser then [DoOption.OptDoBrowser] else []) ++
        (if cmd.forceRefetch then [DoOption.OptDoReplace] else [])) = .error e →
      (doRunE h cmd (url :: rest)).ret = .error (.wrapf "failed to scrape: " e) ∧
      (doRunE h cmd (url :: rest)).stdout = "" ∧
      (doRunE h cmd (url :: rest)).doCalls =
        [(req, (if cmd.browser then [DoOption.OptDoBrowser] else []) ++
          (if cmd.forceRefetch then [DoOption.OptDoReplace] else []), .error e)]) ∧
    (∀ sc req page, newScraper h cmd (url :: rest) = .ok sc →
      h.NewRequest (if cmd.head then "HEAD" else cmd.method) url = .ok req →
      h.Do sc req ((if cmd.browser then [DoOption.OptDoBrowser] else []) ++
        (if cmd.forceRefetch then [DoOption.OptDoReplace] else [])) = .ok page →
      (doRunE h cmd (url :: rest)).ret = .nil ∧
      (doRunE h cmd (url :: rest)).doCalls =
        [(req, (if cmd.browser then [DoOption.OptDoBrowser] else []) ++
          (if cmd.forceRefetch then [DoOption.OptDoReplace] else []), .ok page)]) ∧
    (doRunE h cmd (url :: rest)).doCalls.length ≤ 1 ∧
    (∀ e, (doRunE h cmd (url :: rest)).ret = .error e →
      (doRunE h cmd (url :: rest)).stdout = "") ∧
    (∀ st, (setupLogger h.ParseLevel h.table h.isTerm cmd).2 = .ok st →
      ((Execute h cmd (url :: rest)).exitCode = 1 ↔
        ∃ e, (doRunE h cmd (url :: rest)).ret = .error e) ∧
      ((Execute h cmd (url :: rest)).exitCode = 0 ↔
        (doRunE h cmd (url :: rest)).ret = .nil)) := by
  refine ⟨?_, ?_, ?_, ?_, ?_, ?_, ?_⟩
  · intro e hsc
    rw [doRunE_newScraper_error h cmd _ e hsc]
    exact ⟨rfl, rfl, rfl, rfl⟩
  · intro sc e hsc hreq
    rw [doRunE_newRequest_error h cmd url rest sc e hsc hreq]
    exact ⟨rfl, rfl, rfl⟩
  · intro sc req e hsc hreq hdo
    rw [doRunE_do_error h cmd url rest sc req e hsc hreq hdo]
    exact ⟨rfl, rfl, rfl⟩
  · intro sc req page hsc hreq hdo
    rw [doRunE_do_ok h cmd url rest sc req page hsc hreq hdo]
    exact ⟨rfl, rfl⟩
  · rcases doRunE_doCalls h cmd (url :: rest) with h0 | ⟨req, res, h1⟩
    · rw [h0]
      simp
    · rw [h1]
      simp
  · intro e he
    exact doRunE_error_stdout h cmd (url :: rest) e he
  · intro st hst
    have hcode := (Execute_exitCode h cmd url rest st hst).1
    have hnp := doRunE_no_panic h cmd url rest
    rw [hcode]
    cases hret : (doRunE h cmd (url :: rest)).ret with
    | nil => simp
    | error e => simp
    | panic => exact absurd hret hnp

/-- C10, on the sample host with a bucket URL of an unknown scheme: `doRunE` returns the
wrapped construction error, whose text names the three layers, prints nothing and calls
neither `http.NewRequest` nor `Do`. -/
theorem doRunE_error_paths_witness :
    (doRunE (sampleHost false (.ok (samplePage 200 [] "hello")))
        { defaultCmd with bucketURL := "ftp://example.com/bucket" }
        ["https://example.com"]).ret =
      .error (.wrapf "failed to create scraper: "
        (.wrapf "failed to create bucket: " (.new "unknown scheme"))) ∧
    (doRunE (sampleHost false (.ok (samplePage 200 [] "hello")))
        { defaultCmd with bucketURL := "ftp://example.com/bucket" }
        ["https://example.com"]).stdout = "" ∧
    (doRunE (sampleHost false (.ok (samplePage 200 [] "hello")))
        { defaultCmd with bucketURL := "ftp://example.com/bucket" }
        ["https://example.com"]).requests = [] ∧
    (doRunE (sampleHost false (.ok (samplePage 200 [] "hello")))
        { defaultCmd with bucketURL := "ftp://example.com/bucket" }
        ["https://example.com"]).doCalls = [] :=
  (doRunE_error_paths (sampleHost false (.ok (samplePage 200 [] "hello")))
    { defaultCmd with bucketURL := "ftp://example.com/bucket" } "https://example.com" []).1
    (.wrapf "failed to create bucket: " (.new "unknown scheme")) rfl

end Scraper
